import Mathlib

/-!
Shallow embedding of the frontrun copy-trading pipeline.

Money amounts and prices are modelled as exact rationals (`ℚ`); the SQLite
store is modelled as in-memory lists of rows; each Python function that the
claims touch is translated into a pure Lean function over that state.
Sources embedded here: `src/database/db.py`, `src/config/settings.py`,
`src/trader/safety_rails.py`, `src/monitor/signal_generator.py`,
`src/trader/trade_executor.py`, `src/trader/position_manager.py`,
`src/analyzer/wallet_scorer.py`.
-/

/- `Batteries` marks the `Rat` field operations `@[irreducible]`; restore the
default transparency so that concrete runs of the embedded functions reduce
under `decide` and `rfl` (the kernel ignores reducibility attributes, so
proofs are unaffected). -/
set_option allowUnsafeReducibility true
attribute [semireducible] Rat.add Rat.mul Rat.inv Rat.sub Rat.div

namespace Frontrun

/-- Python `int()` applied to an exact rational: truncation toward zero. -/
def pyInt (q : ℚ) : ℤ := if 0 ≤ q then q.floor else q.ceil

/-- Python `round` to an integer: nearest, ties to even (banker's rounding),
on the exact rational value. -/
def roundHalfEven (x : ℚ) : ℤ :=
  if x - x.floor < 1/2 then x.floor
  else if 1/2 < x - x.floor then x.floor + 1
  else if x.floor % 2 = 0 then x.floor else x.floor + 1

/-- Python `round(x, d)` on the exact rational value. -/
def roundTo (d : ℕ) (x : ℚ) : ℚ := (roundHalfEven (x * (10 : ℚ) ^ d) : ℚ) / (10 : ℚ) ^ d

/-! ## Configuration (`src/config/settings.py`, dataclass `Settings`)

Only the fields the embedded functions read are carried.  Field defaults
follow the dataclass defaults (environment overrides ignored). -/

structure Settings where
  default_position_size_sol : ℚ := 1/100
  max_position_size_sol : ℚ := 1/20
  take_profit_levels : List ℚ := [2, 5]
  take_profit_percentages : List ℚ := [1/2, 1]
  stop_loss_multiplier : ℚ := 1/2
  max_open_positions : ℕ := 10
  max_daily_loss_sol : ℚ := 1/2
  min_liquidity_usd : ℚ := 10000
  min_copy_trade_mcap_usd : ℚ := 50000
  max_copy_trade_mcap_usd : ℚ := 100000000
  token_blacklist : List String := []
  trading_mode : String := "dry_run"
  trading_paused : Bool := false
deriving DecidableEq, Repr

/-- The dataclass defaults of `Settings`. -/
def defaultSettings : Settings := {}

/-- Configuration attributes that `SignalGenerator` reads via `self.settings`
(`consensus_position_multiplier`, `bot_position_multiplier`,
`consensus_window_seconds`).  The `Settings` dataclass in
`src/config/settings.py` declares no such fields, so these attribute reads
have no defined default value in the source; they are modelled as explicit
parameters. -/
structure GeneratorConfig where
  consensus_position_multiplier : ℚ
  bot_position_multiplier : ℚ
  consensus_window_seconds : ℚ
deriving DecidableEq, Repr

/-! ## Store rows (`src/database/models.py`) -/

/-- One level of the serialized `take_profit_levels` JSON ladder of a
position: `{"multiplier": m, "pct": p, "hit": b}`. -/
structure TPLevel where
  multiplier : ℚ
  pct : ℚ
  hit : Bool
deriving DecidableEq, Repr

/-- A row of the `positions` table.  Timestamps are rationals (seconds).
The table has no `signal_source_type` column (see `CREATE_TABLES_SQL` and
`_run_migrations`), which is why `PositionManager` always falls back to
`"human"` when it reads that key from a row dict. -/
structure Position where
  id : ℕ
  token_mint : String
  token_symbol : Option String
  entry_price_usd : ℚ
  current_price_usd : Option ℚ
  amount_sol_invested : ℚ
  amount_tokens_held : ℚ
  take_profit_levels : List TPLevel
  stop_loss_price : Option ℚ
  triggered_by_wallet : Option String
  status : String
  close_reason : Option String
  realized_pnl_sol : ℚ
  unrealized_pnl_sol : ℚ
  opened_at : ℚ
  closed_at : Option ℚ
  last_checked_at : Option ℚ
deriving DecidableEq, Repr

/-- A row of the `trades` table.  `created_today` abstracts the SQL
predicate `date(created_at) = date('now')`. -/
structure Trade where
  id : ℕ
  token_mint : String
  token_symbol : Option String
  side : String
  amount_sol : ℚ
  amount_tokens : Option ℚ
  price_usd : Option ℚ
  triggered_by_wallet : Option String
  signal_id : Option ℕ
  sell_reason : Option String
  tx_signature : Option String
  status : String
  error_message : Option String
  created_today : Bool
deriving DecidableEq, Repr

/-- Input record for `Database.insert_trade` (the `trade_data` dict). -/
structure TradeData where
  token_mint : String
  token_symbol : Option String := none
  side : String
  amount_sol : ℚ
  amount_tokens : Option ℚ := none
  price_usd : Option ℚ := none
  triggered_by_wallet : Option String := none
  signal_id : Option ℕ := none
  sell_reason : Option String := none
  tx_signature : Option String := none
  status : String := "pending"
  error_message : Option String := none
deriving DecidableEq, Repr

/-- A row of the `signals` table (the columns the claims touch). -/
structure SignalRow where
  id : ℕ
  executed : Bool
  trade_id : Option ℕ
  skip_reason : Option String
deriving DecidableEq, Repr

/-- Input record for `Database.open_position` (the `position_data` dict).
Mirrors exactly the columns that the INSERT statement binds; in particular a
`signal_source_type` key passed by the dry-run buy path is ignored because
`open_position` never reads it. -/
structure PositionData where
  token_mint : String
  token_symbol : Option String := none
  entry_price_usd : ℚ
  amount_sol_invested : ℚ
  amount_tokens_held : ℚ
  take_profit_levels : List TPLevel := []
  stop_loss_price : Option ℚ := none
  triggered_by_wallet : Option String := none
deriving DecidableEq, Repr

/-- The embedded store: the three tables the claims are about.  The
`daily_stats` table (recomputed idempotently from `trades`) carries no
information the claims need and is omitted. -/
structure DB where
  positions : List Position := []
  trades : List Trade := []
  signals : List SignalRow := []
deriving DecidableEq, Repr

/-! ## Database operations (`src/database/db.py`, class `Database`) -/

/-- `Database.open_position`: INSERT a new positions row.  Column defaults of
the schema apply: `status='open'`, `realized_pnl_sol=0`,
`opened_at=CURRENT_TIMESTAMP` (the `now` argument models the latter). -/
def open_position (db : DB) (pd : PositionData) (now : ℚ) : DB × ℕ :=
  let pid := db.positions.length + 1
  ({ db with positions := db.positions ++ [{
      id := pid
      token_mint := pd.token_mint
      token_symbol := pd.token_symbol
      entry_price_usd := pd.entry_price_usd
      current_price_usd := none
      amount_sol_invested := pd.amount_sol_invested
      amount_tokens_held := pd.amount_tokens_held
      take_profit_levels := pd.take_profit_levels
      stop_loss_price := pd.stop_loss_price
      triggered_by_wallet := pd.triggered_by_wallet
      status := "open"
      close_reason := none
      realized_pnl_sol := 0
      unrealized_pnl_sol := 0
      opened_at := now
      closed_at := none
      last_checked_at := none }] }, pid)

/-- The per-row effect of the `close_position` UPDATE. -/
def close_row (pid : ℕ) (reason : String) (realized_pnl now : ℚ) (p : Position) :
    Position :=
  if p.id = pid then
    { p with status := "closed", close_reason := some reason,
             realized_pnl_sol := realized_pnl, closed_at := some now }
  else p

/-- `Database.close_position`: `UPDATE positions SET status='closed',
close_reason=?, realized_pnl_sol=?, closed_at=? WHERE id=?`.  Note the SQL
carries no `AND status='open'` guard: the update applies to the row with the
given id whatever its current status. -/
def close_position (db : DB) (pid : ℕ) (reason : String) (realized_pnl : ℚ)
    (now : ℚ) : DB :=
  { db with positions := db.positions.map (close_row pid reason realized_pnl now) }

/-- `Database.update_position_price`. -/
def update_position_price (db : DB) (pid : ℕ) (current_price unrealized_pnl : ℚ)
    (now : ℚ) : DB :=
  { db with positions := db.positions.map fun p =>
      if p.id = pid then
        { p with current_price_usd := some current_price,
                 unrealized_pnl_sol := unrealized_pnl,
                 last_checked_at := some now }
      else p }

/-- `Database.get_open_positions`: `SELECT * FROM positions WHERE status = 'open'`. -/
def get_open_positions (db : DB) : List Position :=
  db.positions.filter fun p => p.status == "open"

/-- `Database.get_open_position_count`. -/
def get_open_position_count (db : DB) : ℕ :=
  (get_open_positions db).length

/-- `Database.get_position_by_token`: first row with this mint and
`status='open'` (SQL `fetchone`, storage order). -/
def get_position_by_token (db : DB) (mint : String) : Option Position :=
  db.positions.find? fun p => p.token_mint == mint && p.status == "open"

/-- `Database.get_todays_pnl`: SUM over today's confirmed trades of
`amount_sol` signed by side (`sell` positive, `buy` negative, else 0). -/
def get_todays_pnl (db : DB) : ℚ :=
  ((db.trades.filter fun t => t.created_today && t.status == "confirmed").map
    fun t => if t.side == "sell" then t.amount_sol
             else if t.side == "buy" then -t.amount_sol else 0).sum

/-- `Database.insert_trade`: INSERT a trades row (id autoincrement;
`created_at` defaults to now, so the new row counts as today's). -/
def insert_trade (db : DB) (td : TradeData) : DB × ℕ :=
  let tid := db.trades.length + 1
  ({ db with trades := db.trades ++ [{
      id := tid
      token_mint := td.token_mint
      token_symbol := td.token_symbol
      side := td.side
      amount_sol := td.amount_sol
      amount_tokens := td.amount_tokens
      price_usd := td.price_usd
      triggered_by_wallet := td.triggered_by_wallet
      signal_id := td.signal_id
      sell_reason := td.sell_reason
      tx_signature := td.tx_signature
      status := td.status
      error_message := td.error_message
      created_today := true }] }, tid)

/-- `Database.mark_signal_executed`:
`UPDATE signals SET executed = TRUE, trade_id = ? WHERE id = ?`. -/
def mark_signal_executed (db : DB) (sid tid : ℕ) : DB :=
  { db with signals := db.signals.map fun s =>
      if s.id = sid then { s with executed := true, trade_id := some tid } else s }

/-- `Database.mark_signal_skipped`:
`UPDATE signals SET skip_reason = ? WHERE id = ?`. -/
def mark_signal_skipped (db : DB) (sid : ℕ) (reason : String) : DB :=
  { db with signals := db.signals.map fun s =>
      if s.id = sid then { s with skip_reason := some reason } else s }

/-! ## Wallet scorer (`src/analyzer/wallet_scorer.py`, class `WalletScorer`) -/

/-- One element of the trade list handed to `WalletScorer._calculate_score`
(a `WalletTokenTrade` projection plus GMGN enrichment fields; the enrichment
is duplicated on every trade of a wallet and only `trades[0]` is read). -/
structure TradeRec where
  token_mint : String
  pnl_sol : Option ℚ := none
  entry_rank : Option ℤ := none
  gmgn_realized_profit : ℚ := 0
  gmgn_realized_profit_30d : ℚ := 0
  gmgn_winrate : Option ℚ := none
  gmgn_buy_30d : ℤ := 0
  gmgn_sell_30d : ℤ := 0
deriving DecidableEq, Repr

/-- The score dict produced by `_calculate_score` (fields the claims use). -/
structure ScoreRow where
  total_score : ℚ
  pnl_score : ℚ
  win_rate_score : ℚ
  timing_score : ℚ
  consistency_score : ℚ
  total_pnl_sol : ℚ
  total_trades : ℤ
  winning_trades : ℤ
  avg_entry_rank : ℤ
  unique_winners : ℕ
deriving DecidableEq, Repr

/-- `WalletScorer._score_pnl`: stepwise bands on effective PnL. -/
def score_pnl (total_pnl : ℚ) : ℚ :=
  if total_pnl ≤ 0 then 0
  else if 100 ≤ total_pnl then 25
  else if 50 ≤ total_pnl then 22
  else if 20 ≤ total_pnl then 18
  else if 10 ≤ total_pnl then 15
  else if 5 ≤ total_pnl then 12
  else if 1 ≤ total_pnl then 8
  else 3

/-- `WalletScorer._score_win_rate`. -/
def score_win_rate (win_rate : ℚ) (total_trades : ℤ) : ℚ :=
  if total_trades < 3 then
    if 2 ≤ total_trades ∧ 1/2 < win_rate then 10 else 5
  else if 4/5 ≤ win_rate then 25
  else if 7/10 ≤ win_rate then 20
  else if 3/5 ≤ win_rate then 15
  else if 1/2 ≤ win_rate then 10
  else 5

/-- `WalletScorer._score_timing`. -/
def score_timing (avg_entry_rank : ℚ) : ℚ :=
  if avg_entry_rank ≤ 50 then 25
  else if avg_entry_rank ≤ 100 then 22
  else if avg_entry_rank ≤ 200 then 18
  else if avg_entry_rank ≤ 500 then 12
  else if avg_entry_rank ≤ 1000 then 8
  else 3

/-- `WalletScorer._score_consistency`.  The `unique_tokens` argument is
accepted but unused, exactly as in the source. -/
def score_consistency (unique_winners : ℕ) (unique_tokens : ℕ) : ℚ :=
  if 10 ≤ unique_winners then 25
  else if 7 ≤ unique_winners then 22
  else if 5 ≤ unique_winners then 18
  else if 3 ≤ unique_winners then 14
  else if 2 ≤ unique_winners then 10
  else 5

/-- The locally aggregated PnL: `sum(t.get("pnl_sol", 0) or 0 for t in trades)`. -/
def local_total_pnl (trades : List TradeRec) : ℚ :=
  (trades.map fun t => (t.pnl_sol.getD 0)).sum

/-- `WalletScorer._calculate_score` on a non-empty trade list `t0 :: rest`
(the source indexes `trades[0]` unconditionally). -/
def calculate_score (t0 : TradeRec) (rest : List TradeRec) : ScoreRow :=
  let trades := t0 :: rest
  let total_pnl := local_total_pnl trades
  let total_trades : ℤ := trades.length
  let winning_trades : ℤ := (trades.filter fun t => 0 < t.pnl_sol.getD 0).length
  let win_rate : ℚ := if 0 < total_trades then winning_trades / total_trades else 0
  -- `[t.get("entry_rank", 500) for t in trades if t.get("entry_rank")]`:
  -- Python truthiness also drops a rank of 0
  let entry_ranks : List ℤ := trades.filterMap fun t =>
    match t.entry_rank with
    | some r => if r = 0 then none else some r
    | none => none
  let avg_entry_rank : ℚ :=
    if entry_ranks ≠ [] then ((entry_ranks.map (fun r => (r : ℚ))).sum) / entry_ranks.length
    else 500
  let unique_winners : ℕ :=
    ((trades.filter fun t => 0 < t.pnl_sol.getD 0 && t.token_mint ≠ "").map
      (fun t => t.token_mint)).dedup.length
  let unique_tokens : ℕ :=
    ((trades.filter fun t => t.token_mint ≠ "").map (fun t => t.token_mint)).dedup.length
  let gmgn_profit := t0.gmgn_realized_profit
  let gmgn_profit_30d := t0.gmgn_realized_profit_30d
  let gmgn_buy_30d := t0.gmgn_buy_30d
  -- GMGN USD profit converted at the hard-coded $150/SOL reference rate
  let effective_pnl : ℚ :=
    if 0 < gmgn_profit_30d then gmgn_profit_30d / 150
    else if 0 < gmgn_profit then gmgn_profit / 150
    else total_pnl
  let effective_win_rate : ℚ := match t0.gmgn_winrate with
    | some wr => wr
    | none => win_rate
  let winning_trades : ℤ := match t0.gmgn_winrate with
    | some wr => if gmgn_buy_30d ≠ 0 then pyInt (wr * gmgn_buy_30d) else winning_trades
    | none => winning_trades
  let effective_total_trades : ℤ :=
    if total_trades < gmgn_buy_30d ∧ gmgn_buy_30d ≤ 15000 then gmgn_buy_30d
    else total_trades
  let pnl_score := score_pnl effective_pnl
  let win_rate_score := score_win_rate effective_win_rate effective_total_trades
  let timing_score := score_timing avg_entry_rank
  let consistency_score := score_consistency unique_winners unique_tokens
  let total_score := pnl_score + win_rate_score + timing_score + consistency_score
  { total_score := roundTo 1 total_score
    pnl_score := roundTo 1 pnl_score
    win_rate_score := roundTo 1 win_rate_score
    timing_score := roundTo 1 timing_score
    consistency_score := roundTo 1 consistency_score
    total_pnl_sol := roundTo 4 effective_pnl
    total_trades := effective_total_trades
    winning_trades := winning_trades
    avg_entry_rank := pyInt avg_entry_rank
    unique_winners := unique_winners }

/-- Modelled from the spec: the spec's rule for effective PnL — use the
provider's 30d profit (USD) converted at the reference rate `if it exceeds
locally aggregated PnL; otherwise locally aggregated`.  Used only to compare
the spec's wording against `calculate_score`. -/
def effective_pnl_per_spec (local_pnl gmgn_profit_30d_usd : ℚ) : ℚ :=
  if local_pnl < gmgn_profit_30d_usd / 150 then gmgn_profit_30d_usd / 150
  else local_pnl

/-! ## Safety rails (`src/trader/safety_rails.py`, class `SafetyRails`) -/

/-- The reason returned by a failing rail of `pre_trade_check` (the source
formats these as strings; the message text is irrelevant to the claims). -/
inductive PreTradeDenial where
  | killSwitch
  | notLiveMode
  | dailyLossLimit
  | maxPositions
  | maxPositionSize
  | insufficientBalance
deriving DecidableEq, Repr

/-- The skip-reason label recorded for a denial (passed to
`mark_signal_skipped` by the executor). -/
def denialLabel : PreTradeDenial → String
  | .killSwitch => "Kill switch is active"
  | .notLiveMode => "Not in live mode"
  | .dailyLossLimit => "Daily loss limit reached"
  | .maxPositions => "Max positions reached"
  | .maxPositionSize => "Max position size for this token"
  | .insufficientBalance => "Insufficient SOL balance"

/-- `SafetyRails.pre_trade_check`: the six rails in source order.  Returns
`none` for "allow" together with the (possibly auto-paused) settings; rail 3
sets `settings.trading_paused = True` on a daily-loss breach. -/
def pre_trade_check (st : Settings) (db : DB) (signal_token_mint : String)
    (wallet_balance_sol : ℚ) : Option PreTradeDenial × Settings :=
  if st.trading_paused then (some .killSwitch, st)
  else if st.trading_mode ≠ "live" then (some .notLiveMode, st)
  else if get_todays_pnl db ≤ -st.max_daily_loss_sol then
    (some .dailyLossLimit, { st with trading_paused := true })
  else if st.max_open_positions ≤ get_open_position_count db then
    (some .maxPositions, st)
  else if (get_position_by_token db signal_token_mint).any
            (fun existing => st.max_position_size_sol ≤ existing.amount_sol_invested) then
    (some .maxPositionSize, st)
  else if wallet_balance_sol < st.default_position_size_sol + 1/100 then
    (some .insufficientBalance, st)
  else (none, st)

/-- `SafetyRails.post_trade_check`: recompute daily stats (whose
`total_pnl_sol` is `get_todays_pnl`) and auto-pause on a daily-loss breach.
`update_daily_stats` writes only the `daily_stats` table, so the store state
the claims track is unchanged. -/
def post_trade_check (st : Settings) (db : DB) : Settings :=
  if get_todays_pnl db ≤ -st.max_daily_loss_sol then
    { st with trading_paused := true }
  else st

/-- `SafetyRails.calculate_position_size`. -/
def calculate_position_size (st : Settings) (confidence : ℚ)
    (wallet_balance_sol : ℚ) : ℚ :=
  let base_size := st.default_position_size_sol
  let max_from_balance := wallet_balance_sol * (1/2)
  let size := min base_size max_from_balance
  let size :=
    if 4/5 ≤ confidence then min (size * 1) st.max_position_size_sol
    else if 3/5 ≤ confidence then min (size * (4/5)) st.max_position_size_sol
    else size
  let size := min size st.max_position_size_sol
  let size := max size (1/1000)
  roundTo 6 size

/-! ## Signal generator (`src/monitor/signal_generator.py`, class
`SignalGenerator`) -/

/-- The raw signal dict fields `validate_signal` reads. -/
structure RawSignal where
  signal_id : ℕ
  wallet_address : String
  token_mint : String
deriving DecidableEq, Repr

/-- Token data as normalized by `_get_token_data` /
`_get_token_data_dexscreener` (the fields `validate_signal` reads). -/
structure TokenData where
  symbol : String
  price_usd : ℚ
  market_cap_usd : ℚ
  liquidity_usd : ℚ
deriving DecidableEq, Repr

/-- Outcome of `validate_signal`: a skip with the recorded reason label, or a
go-ahead carrying the enriched signal fields the executor consumes
(`signal_source_type`, `position_size_sol`, consensus count). -/
inductive ValidateResult where
  | skip (reason : String)
  | trade (source_type : String) (position_size_sol : ℚ) (consensus_count : ℕ)
deriving DecidableEq, Repr

/-- `SignalGenerator._record_buy` for one mint's recent-buys list: append the
buy, then drop entries older than the consensus window. -/
def record_buy (recent : List (String × ℚ)) (wallet_address : String)
    (timestamp window : ℚ) : List (String × ℚ) :=
  (recent ++ [(wallet_address, timestamp)]).filter fun wt => timestamp - wt.2 ≤ window

/-- `SignalGenerator._check_consensus` for one mint: count unique wallets
within the window. -/
def check_consensus (recent : List (String × ℚ)) (now_ts window : ℚ) : ℕ :=
  ((recent.filter fun wt => now_ts - wt.2 ≤ window).map Prod.fst).dedup.length

/-- `SignalGenerator.validate_signal`: the gates in source order.  External
observations are passed in: `token_data` (result of the Birdeye/DexScreener
fetch), `is_honeypot` (result of `_check_honeypot`), `wallet_type` (result of
`_get_wallet_type`, `"human"` or `"bot"`), `recent` (the `_recent_buys` list
for this signal's mint) and `now_ts`.  Returns the outcome, the settings
(check 4 auto-pauses), the store (skips are recorded on the signal row), and
the updated recent-buys list for the mint. -/
def validate_signal (st : Settings) (cfg : GeneratorConfig) (db : DB)
    (sig : RawSignal) (token_data : Option TokenData) (is_honeypot : Bool)
    (wallet_type : String) (recent : List (String × ℚ)) (now_ts : ℚ) :
    ValidateResult × Settings × DB × List (String × ℚ) :=
  if st.trading_paused then (.skip "kill_switch", st, db, recent)
  else if sig.token_mint ∈ st.token_blacklist then
    (.skip "blacklisted", st, mark_signal_skipped db sig.signal_id "blacklisted", recent)
  else if st.max_open_positions ≤ get_open_position_count db then
    (.skip "max_positions_reached", st,
      mark_signal_skipped db sig.signal_id "max_positions_reached", recent)
  else if get_todays_pnl db ≤ -st.max_daily_loss_sol then
    (.skip "daily_loss_limit", { st with trading_paused := true },
      mark_signal_skipped db sig.signal_id "daily_loss_limit", recent)
  else if (get_position_by_token db sig.token_mint).any
            (fun existing => st.max_position_size_sol ≤ existing.amount_sol_invested) then
    (.skip "max_position_size", st,
      mark_signal_skipped db sig.signal_id "max_position_size", recent)
  else if token_data.any (fun td => td.liquidity_usd < st.min_liquidity_usd) then
    (.skip "low_liquidity", st,
      mark_signal_skipped db sig.signal_id "low_liquidity", recent)
  else if token_data.any
            (fun td => 0 < td.market_cap_usd && td.market_cap_usd < st.min_copy_trade_mcap_usd) then
    (.skip "mcap_too_low", st,
      mark_signal_skipped db sig.signal_id "mcap_too_low", recent)
  else if token_data.any
            (fun td => 0 < td.market_cap_usd && st.max_copy_trade_mcap_usd < td.market_cap_usd) then
    (.skip "mcap_too_high", st,
      mark_signal_skipped db sig.signal_id "mcap_too_high", recent)
  else if is_honeypot then
    (.skip "honeypot_detected", st,
      mark_signal_skipped db sig.signal_id "honeypot_detected", recent)
  else
    let recent1 := record_buy recent sig.wallet_address now_ts cfg.consensus_window_seconds
    let consensus_count := check_consensus recent1 now_ts cfg.consensus_window_seconds
    let source_type := if 2 ≤ consensus_count then "consensus" else wallet_type
    let base_size := st.default_position_size_sol
    let position_size :=
      if source_type = "consensus" then base_size * cfg.consensus_position_multiplier
      else if source_type = "bot" then base_size * cfg.bot_position_multiplier
      else base_size
    (.trade source_type position_size consensus_count, st, db, recent1)

/-! ## Exit rules (`src/trader/position_manager.py`, `EXIT_RULES`) -/

/-- One entry of the `EXIT_RULES` table. -/
structure ExitRules where
  tp_levels : List (ℚ × ℚ)
  sl_multiplier : ℚ
  max_hold_hours : ℚ
deriving DecidableEq, Repr

/-- `EXIT_RULES.get(source_type, EXIT_RULES["human"])`: tiered exit rules by
signal source type, falling back to `"human"` for unknown keys. -/
def EXIT_RULES (source_type : String) : ExitRules :=
  if source_type = "human" then
    { tp_levels := [(2, 1/2), (4, 1/2), (8, 1)], sl_multiplier := 3/5, max_hold_hours := 24 }
  else if source_type = "bot" then
    { tp_levels := [(3/2, 1/2), (5/2, 1)], sl_multiplier := 4/5, max_hold_hours := 2 }
  else if source_type = "consensus" then
    { tp_levels := [(2, 33/100), (5, 1/2), (10, 1)], sl_multiplier := 7/10, max_hold_hours := 48 }
  else
    { tp_levels := [(2, 1/2), (4, 1/2), (8, 1)], sl_multiplier := 3/5, max_hold_hours := 24 }

/-! ## Trade executor (`src/trader/trade_executor.py`, class `TradeExecutor`) -/

/-- The signal dict fields the executor reads (the enriched signal). -/
structure ExecSignal where
  token_mint : String
  token_symbol : Option String := none
  wallet_address : String
  signal_id : Option ℕ := none
  confidence : Option ℚ := none
  token_data : Option TokenData := none
  signal_source_type : Option String := none
  position_size_sol : Option ℚ := none
deriving DecidableEq, Repr

/-- A Jupiter quote (the fields the executor reads). -/
structure Quote where
  outAmount : ℤ
  priceImpactPct : ℚ := 0
deriving DecidableEq, Repr

/-- External outcomes a buy attempt can observe: wallet balance, quote
(`none` = no route), swap broadcast (`none` = failure), confirmation. -/
structure BuyEnv where
  balance : ℚ
  quote : Option Quote := none
  swap_signature : Option String := none
  confirm : Bool := false
deriving DecidableEq, Repr

/-- The dict returned by a successful `_execute_buy`. -/
structure BuyResult where
  trade_id : ℕ
  status : String
  amount_sol : ℚ
  tokens_received : ℤ
  price_usd : ℚ
deriving DecidableEq, Repr

/-- `TradeExecutor._calculate_actual_slippage`. -/
def calculate_actual_slippage (q : Quote) : ℤ :=
  pyInt (|q.priceImpactPct| * 100)

/-- The take-profit ladder the live buy path installs:
`zip(settings.take_profit_levels, settings.take_profit_percentages)` with all
`hit` flags false. -/
def tp_levels_from_settings (st : Settings) : List TPLevel :=
  (st.take_profit_levels.zip st.take_profit_percentages).map fun mp =>
    { multiplier := mp.1, pct := mp.2, hit := false }

/-- Python truthiness of `signal.get("signal_id")`. -/
def signalIdTruthy (sid : Option ℕ) : Option ℕ :=
  match sid with
  | some n => if n = 0 then none else some n
  | none => none

/-- `TradeExecutor._execute_buy` (live mode): pre-trade check, sizing, quote,
swap, confirm, trade insert, `mark_signal_executed`, position open on
confirmation, post-trade check.  Returns the settings (pre/post checks can
auto-pause), the store, and the result dict. -/
def execute_buy (st : Settings) (db : DB) (sig : ExecSignal) (env : BuyEnv)
    (now : ℚ) : Settings × DB × Option BuyResult :=
  match pre_trade_check st db sig.token_mint env.balance with
  | (some denial, st1) =>
    let db1 := match signalIdTruthy sig.signal_id with
      | some sid => mark_signal_skipped db sid (denialLabel denial)
      | none => db
    (st1, db1, none)
  | (none, st1) =>
    let position_size_sol := calculate_position_size st (sig.confidence.getD (1/2)) env.balance
    match env.quote with
    | none =>
      let (db1, _) := insert_trade db {
        token_mint := sig.token_mint, token_symbol := sig.token_symbol,
        side := "buy", amount_sol := position_size_sol,
        triggered_by_wallet := some sig.wallet_address,
        signal_id := sig.signal_id, status := "failed",
        error_message := some "Jupiter quote failed" }
      (st1, db1, none)
    | some q =>
      match env.swap_signature with
      | none =>
        let (db1, _) := insert_trade db {
          token_mint := sig.token_mint, token_symbol := sig.token_symbol,
          side := "buy", amount_sol := position_size_sol,
          triggered_by_wallet := some sig.wallet_address,
          signal_id := sig.signal_id, status := "failed",
          error_message := some "Swap execution failed" }
        (st1, db1, none)
      | some tx_signature =>
        let status := if env.confirm then "confirmed" else "unconfirmed"
        let tokens_received := q.outAmount
        let price_usd : ℚ := match sig.token_data with
          | some td => td.price_usd
          | none => 0
        let (db1, trade_id) := insert_trade db {
          token_mint := sig.token_mint, token_symbol := sig.token_symbol,
          side := "buy", amount_sol := position_size_sol,
          amount_tokens := some (tokens_received : ℚ), price_usd := some price_usd,
          triggered_by_wallet := some sig.wallet_address,
          signal_id := sig.signal_id, tx_signature := some tx_signature,
          status := status }
        let db2 := match signalIdTruthy sig.signal_id with
          | some sid => mark_signal_executed db1 sid trade_id
          | none => db1
        let db3 :=
          if env.confirm then
            (open_position db2 {
              token_mint := sig.token_mint, token_symbol := sig.token_symbol,
              entry_price_usd := price_usd,
              amount_sol_invested := position_size_sol,
              amount_tokens_held := (tokens_received : ℚ),
              take_profit_levels := tp_levels_from_settings st,
              stop_loss_price :=
                if price_usd ≠ 0 then some (price_usd * st.stop_loss_multiplier) else none,
              triggered_by_wallet := some sig.wallet_address } now).1
          else db2
        let st2 := post_trade_check st1 db3
        (st2, db3, some {
          trade_id := trade_id, status := status,
          amount_sol := position_size_sol,
          tokens_received := tokens_received, price_usd := price_usd })

/-- `TradeExecutor._dry_run_buy`: record a `dry_run` trade, mark the signal
executed, and (when a price is known) open a position using the source-type
exit rules and tokens estimated from the SOL price (`sol_price_usd` is the
`_get_sol_price` observation). -/
def dry_run_buy (st : Settings) (db : DB) (sig : ExecSignal)
    (sol_price_usd : Option ℚ) (now : ℚ) : Settings × DB × Option ℕ :=
  -- `signal.get("position_size_sol") or default`: Python `or` also replaces 0
  let position_size : ℚ := match sig.position_size_sol with
    | some v => if v = 0 then st.default_position_size_sol else v
    | none => st.default_position_size_sol
  let price_usd : ℚ := match sig.token_data with
    | some td => td.price_usd
    | none => 0
  let (db1, trade_id) := insert_trade db {
    token_mint := sig.token_mint, token_symbol := sig.token_symbol,
    side := "buy", amount_sol := position_size, price_usd := some price_usd,
    triggered_by_wallet := some sig.wallet_address,
    signal_id := sig.signal_id, status := "dry_run" }
  let db2 := match signalIdTruthy sig.signal_id with
    | some sid => mark_signal_executed db1 sid trade_id
    | none => db1
  if price_usd ≤ 0 then (st, db2, some trade_id)
  else
    -- `signal.get("signal_source_type", "human") or "human"`
    let source_type : String := match sig.signal_source_type with
      | some s => if s = "" then "human" else s
      | none => "human"
    let rules := EXIT_RULES source_type
    let tp_levels := rules.tp_levels.map fun mp =>
      { multiplier := mp.1, pct := mp.2, hit := false : TPLevel }
    let estimated_tokens : ℚ := match sol_price_usd with
      | some sp => (pyInt (position_size * sp / price_usd * 1000000) : ℚ)
      | none => 0
    let db3 := (open_position db2 {
      token_mint := sig.token_mint, token_symbol := sig.token_symbol,
      entry_price_usd := price_usd,
      amount_sol_invested := position_size,
      amount_tokens_held := estimated_tokens,
      take_profit_levels := tp_levels,
      stop_loss_price := some (price_usd * rules.sl_multiplier),
      triggered_by_wallet := some sig.wallet_address } now).1
    (st, db3, some trade_id)

/-- External outcomes a sell attempt can observe. -/
structure SellEnv where
  quote : Option Quote := none
  swap_signature : Option String := none
  confirm : Bool := false
deriving DecidableEq, Repr

/-- The dict returned by a successful `execute_sell`. -/
structure SellResult where
  trade_id : Option ℕ
  sol_received : ℚ
  status : String
deriving DecidableEq, Repr

/-- `TradeExecutor.execute_sell`: sell a fraction of a position.  In the
live branches: quote, swap, confirm, insert the sell trade, then close the
position on a full sell; a partial sell only logs the remaining tokens — the
store's `amount_tokens_held` is not updated.  Returns the settings, the
store, and the result. -/
def execute_sell (st : Settings) (db : DB) (position : Position)
    (sell_percentage : ℚ) (reason : String) (env : SellEnv) (now : ℚ) :
    Settings × DB × Option SellResult :=
  let tokens_to_sell : ℤ := pyInt (position.amount_tokens_held * sell_percentage)
  if tokens_to_sell ≤ 0 then (st, db, none)
  else if st.trading_mode = "dry_run" then
    if 1 ≤ sell_percentage then
      let entry_price := position.entry_price_usd
      let current_price := position.current_price_usd.getD 0
      let invested := position.amount_sol_invested
      let simulated_pnl :=
        if 0 < entry_price ∧ 0 < current_price then
          invested * (current_price / entry_price - 1)
        else 0
      (st, close_position db position.id reason simulated_pnl now,
        some { trade_id := none, sol_received := 0, status := "dry_run" })
    else
      (st, db, some { trade_id := none, sol_received := 0, status := "dry_run" })
  else
    match env.quote with
    | none => (st, db, none)
    | some q =>
      match env.swap_signature with
      | none => (st, db, none)
      | some tx_signature =>
        let sol_received : ℚ := (q.outAmount : ℚ) / 1000000000
        let status := if env.confirm then "confirmed" else "unconfirmed"
        -- `position.get("current_price_usd", ...)`: the row dict always has
        -- the column, so the nested `entry_price_usd` fallback is dead code
        let (db1, trade_id) := insert_trade db {
          token_mint := position.token_mint, token_symbol := position.token_symbol,
          side := "sell", amount_sol := sol_received,
          amount_tokens := some (tokens_to_sell : ℚ),
          price_usd := position.current_price_usd,
          sell_reason := some reason, tx_signature := some tx_signature,
          status := status }
        let db2 :=
          if 1 ≤ sell_percentage then
            let realized_pnl := sol_received - position.amount_sol_invested
            close_position db1 position.id reason realized_pnl now
          else
            -- partial sell: `remaining` is computed for the log line only;
            -- no store update happens
            db1
        let st1 := post_trade_check st db2
        (st1, db2, some { trade_id := some trade_id, sol_received := sol_received,
                          status := status })

/-! ## Position manager (`src/trader/position_manager.py`, class
`PositionManager`) -/

/-- `position.get("signal_source_type", "human") or "human"` on a positions
row: the table has no such column, so this is always `"human"`. -/
def source_type_of_row (_position : Position) : String := "human"

/-- One iteration of the loop body of `PositionManager._check_positions` for
one position: price update, max-hold, stop-loss, first unhit take-profit
level.  `current_price` is the `_get_current_price` observation; `sellEnv`
the executor's observations for the triggered sell, if any.  Returns the
settings, the store, and the action taken `(fraction, reason)`.  The `hit`
flag of a fired level is flipped only on the in-memory list parsed from the
row, which this function returns last — it is never written back to the
store. -/
def check_position (st : Settings) (db : DB) (position : Position)
    (current_price : Option ℚ) (sellEnv : SellEnv) (now : ℚ) :
    Settings × DB × Option (ℚ × String) × List TPLevel :=
  match current_price with
  | none => (st, db, none, position.take_profit_levels)
  | some cp =>
    if cp ≤ 0 then (st, db, none, position.take_profit_levels)
    else if position.entry_price_usd ≤ 0 then (st, db, none, position.take_profit_levels)
    else
      let price_multiplier := cp / position.entry_price_usd
      let unrealized_pnl := position.amount_sol_invested * (price_multiplier - 1)
      let db1 := update_position_price db position.id cp unrealized_pnl now
      let rules := EXIT_RULES (source_type_of_row position)
      let hours_held := (now - position.opened_at) / 3600
      if rules.max_hold_hours ≤ hours_held then
        let r := execute_sell st db1 position 1 "max_hold_time" sellEnv now
        (r.1, r.2.1, some (1, "max_hold_time"), position.take_profit_levels)
      else if price_multiplier ≤ rules.sl_multiplier then
        let r := execute_sell st db1 position 1 "stop_loss" sellEnv now
        (r.1, r.2.1, some (1, "stop_loss"), position.take_profit_levels)
      else
        let tp_levels :=
          if position.take_profit_levels = [] then
            rules.tp_levels.map fun mp => { multiplier := mp.1, pct := mp.2, hit := false : TPLevel }
          else position.take_profit_levels
        match tp_levels.find? (fun lv => !lv.hit && lv.multiplier ≤ price_multiplier) with
        | some lv =>
          let r := execute_sell st db1 position lv.pct "take_profit" sellEnv now
          -- `tp_levels[i]["hit"] = True` mutates only the local list
          let tp_local := tp_levels.map fun l =>
            if l = lv then { l with hit := true } else l
          (r.1, r.2.1, some (lv.pct, "take_profit"), tp_local)
        | none => (st, db1, none, tp_levels)

/-! ## Pipeline operations over the shared settings

Every embedded pipeline entry point that can read or write the shared
`Settings` object (in particular the `trading_paused` kill switch), bundled
as one step relation for the temporal claims. -/

/-- One pipeline call, with the store snapshot and external observations it
runs against. -/
inductive PipelineOp where
  | preTrade (db : DB) (mint : String) (balance : ℚ)
  | postTrade (db : DB)
  | validate (cfg : GeneratorConfig) (db : DB) (sig : RawSignal)
      (token_data : Option TokenData) (is_honeypot : Bool) (wallet_type : String)
      (recent : List (String × ℚ)) (now_ts : ℚ)
  | buy (db : DB) (sig : ExecSignal) (env : BuyEnv) (now : ℚ)
  | dryBuy (db : DB) (sig : ExecSignal) (sol_price : Option ℚ) (now : ℚ)
  | sell (db : DB) (position : Position) (pct : ℚ) (reason : String)
      (env : SellEnv) (now : ℚ)
  | tick (db : DB) (position : Position) (price : Option ℚ) (env : SellEnv) (now : ℚ)

/-- The settings produced by running one pipeline call. -/
def step_paused (st : Settings) : PipelineOp → Settings
  | .preTrade db mint bal => (pre_trade_check st db mint bal).2
  | .postTrade db => post_trade_check st db
  | .validate cfg db sig td hp wt recent now =>
      (validate_signal st cfg db sig td hp wt recent now).2.1
  | .buy db sig env now => (execute_buy st db sig env now).1
  | .dryBuy db sig sp now => (dry_run_buy st db sig sp now).1
  | .sell db pos pct reason env now => (execute_sell st db pos pct reason env now).1
  | .tick db pos price env now => (check_position st db pos price env now).1

/-! ## Invariants -/

/-- P2: at most one open position per mint — the open rows are pairwise on
distinct mints. -/
def uniqueOpenInv (db : DB) : Prop :=
  (db.positions.filter fun p => p.status == "open").Pairwise
    fun p q => p.token_mint ≠ q.token_mint

instance (db : DB) : Decidable (uniqueOpenInv db) := by
  unfold uniqueOpenInv; infer_instance

/-- Number of open positions on a given mint. -/
def countOpen (db : DB) (m : String) : ℕ :=
  (db.positions.filter fun p => p.token_mint == m && p.status == "open").length

/-- P4 as the code realizes it: every executed signal links to an existing
trade whose status lies in the given set. -/
def signalTradeLinkInv (allowed : List String) (db : DB) : Prop :=
  ∀ s ∈ db.signals, s.executed = true →
    ∃ t ∈ db.trades, s.trade_id = some t.id ∧ t.status ∈ allowed

instance (allowed : List String) (db : DB) : Decidable (signalTradeLinkInv allowed db) := by
  unfold signalTradeLinkInv; infer_instance

/-! ## Concrete fixtures -/

/-- Default settings switched to live trading. -/
def liveSettings : Settings := { defaultSettings with trading_mode := "live" }

/-- A winning scorer trade on mint `m` with profit `p`, entry rank 120,
no GMGN enrichment. -/
def e2win (m : String) (p : ℚ) : TradeRec :=
  { token_mint := m, pnl_sol := some p, entry_rank := some 120 }

/-- A losing scorer trade on mint `m` with loss 1, entry rank 120. -/
def e2loss (m : String) : TradeRec :=
  { token_mint := m, pnl_sol := some (-1), entry_rank := some 120 }

/-- The E2 wallet: 10 trades, 7 winners over 4 unique mints, total PnL 25,
every entry rank 120. -/
def e2rest : List TradeRec :=
  [e2win "A" 4, e2win "A" 4, e2win "A" 4, e2win "B" 3, e2win "C" 3,
   e2win "D" 6, e2loss "E", e2loss "F", e2loss "G"]

/-- An open position on mint `M` with a small invested amount (below the
per-token cap). -/
def posM : Position :=
  { id := 1, token_mint := "M", token_symbol := some "M", entry_price_usd := 1,
    current_price_usd := none, amount_sol_invested := 1/100,
    amount_tokens_held := 1000, take_profit_levels := [],
    stop_loss_price := none, triggered_by_wallet := none, status := "open",
    close_reason := none, realized_pnl_sol := 0, unrealized_pnl_sol := 0,
    opened_at := 0, closed_at := none, last_checked_at := none }

/-- A store holding just `posM`. -/
def dbPosM : DB := { positions := [posM] }

/-- An already-closed position (closed as a stop-loss with −1 PnL at t=100). -/
def posClosed : Position :=
  { id := 1, token_mint := "M", token_symbol := some "M", entry_price_usd := 1,
    current_price_usd := some (1/2), amount_sol_invested := 1,
    amount_tokens_held := 0, take_profit_levels := [],
    stop_loss_price := some (1/2), triggered_by_wallet := none,
    status := "closed", close_reason := some "stop_loss", realized_pnl_sol := -1,
    unrealized_pnl_sol := 0, opened_at := 0, closed_at := some 100,
    last_checked_at := some 100 }

/-- A store holding just `posClosed`. -/
def dbClosed : DB := { positions := [posClosed] }

/-- A pending signal row (id 1, not yet executed). -/
def sigRow1 : SignalRow := { id := 1, executed := false, trade_id := none, skip_reason := none }

/-- A store holding just the pending signal row. -/
def dbSig1 : DB := { signals := [sigRow1] }

/-- An enriched buy signal on mint `M` from a human-type source. -/
def sigM : ExecSignal :=
  { token_mint := "M", token_symbol := some "M", wallet_address := "W",
    signal_id := some 1, confidence := some (7/10),
    token_data := some { symbol := "M", price_usd := 1, market_cap_usd := 1000000,
                         liquidity_usd := 50000 },
    signal_source_type := some "human" }

/-- Buy observations: ample balance, a route, a broadcast, but the
transaction never confirms. -/
def envUnconfirmed : BuyEnv :=
  { balance := 1, quote := some { outAmount := 1000 }, swap_signature := some "tx",
    confirm := false }

/-- Buy observations: ample balance, a route, a broadcast, confirmed. -/
def envConfirmed : BuyEnv :=
  { balance := 1, quote := some { outAmount := 1000 }, swap_signature := some "tx",
    confirm := true }

/-- An open human-ladder position on mint `M`, entry $1, 1 SOL invested,
1,000,000 tokens held, fresh `hit=false` flags (as the dry-run buy path
installs them). -/
def posTP : Position :=
  { id := 1, token_mint := "M", token_symbol := some "M", entry_price_usd := 1,
    current_price_usd := none, amount_sol_invested := 1,
    amount_tokens_held := 1000000,
    take_profit_levels := [{ multiplier := 2, pct := 1/2, hit := false },
                           { multiplier := 4, pct := 1/2, hit := false },
                           { multiplier := 8, pct := 1, hit := false }],
    stop_loss_price := some (3/5), triggered_by_wallet := none, status := "open",
    close_reason := none, realized_pnl_sol := 0, unrealized_pnl_sol := 0,
    opened_at := 0, closed_at := none, last_checked_at := none }

/-- A store holding just `posTP`. -/
def dbTP : DB := { positions := [posTP] }

/-- Sell observations: a route returning 1.5 SOL, broadcast, confirmed. -/
def sellEnvOk : SellEnv :=
  { quote := some { outAmount := 1500000000 }, swap_signature := some "tx",
    confirm := true }

/-- A confirmed buy trade of 0.25 SOL from today (no sells). -/
def buyTrade (i : ℕ) : Trade :=
  { id := i, token_mint := "M", token_symbol := some "M", side := "buy",
    amount_sol := 1/4, amount_tokens := some 1000, price_usd := some 1,
    triggered_by_wallet := some "W", signal_id := none, sell_reason := none,
    tx_signature := some "tx", status := "confirmed", error_message := none,
    created_today := true }

/-- A store whose only trades are two confirmed buys from today totalling
0.5 SOL spent. -/
def dbBuysOnly : DB := { trades := [buyTrade 1, buyTrade 2] }

/-- A generator configuration: consensus doubles the position, bots get half,
a 300-second consensus window (the multipliers the docstrings describe). -/
def valCfg : GeneratorConfig :=
  { consensus_position_multiplier := 2, bot_position_multiplier := 1/2,
    consensus_window_seconds := 300 }

/-- A raw buy signal on mint `M` from wallet `W`. -/
def valSig : RawSignal := { signal_id := 1, wallet_address := "W", token_mint := "M" }

/-- Healthy token data for mint `M` (liquidity and mcap inside all gates). -/
def valTd : TokenData :=
  { symbol := "M", price_usd := 1, market_cap_usd := 1000000, liquidity_usd := 50000 }

/-- Position data for a buy on mint `M` (a second buy on the same mint). -/
def pdM : PositionData :=
  { token_mint := "M", entry_price_usd := 1, amount_sol_invested := 1/100,
    amount_tokens_held := 1000 }

/-- A scorer trade whose wallet aggregates 100 SOL of local PnL but whose
GMGN enrichment reports only 150 USD of 30-day profit (1 SOL at the
hard-coded 150 USD/SOL reference rate). -/
def c8trade : TradeRec :=
  { token_mint := "A", pnl_sol := some 100, entry_rank := some 120,
    gmgn_realized_profit_30d := 150 }

/-! ## Theorems -/

/-- C9: the E2 scorer example.  A wallet whose trades aggregate to total PnL
25 SOL, 7 winning trades out of 10, average entry rank 120 and 4 unique
winning tokens, with no provider enrichment, scores exactly `pnl_score=18`,
`win_rate_score=20`, `timing_score=18`, `consistency_score=14`,
`total_score=70.0`. -/
theorem C9_e2_scorer :
    ((calculate_score (e2win "A" 4) e2rest).total_pnl_sol = 25
     ∧ (calculate_score (e2win "A" 4) e2rest).total_trades = 10
     ∧ (calculate_score (e2win "A" 4) e2rest).winning_trades = 7
     ∧ (calculate_score (e2win "A" 4) e2rest).avg_entry_rank = 120
     ∧ (calculate_score (e2win "A" 4) e2rest).unique_winners = 4) ∧
    (calculate_score (e2win "A" 4) e2rest).pnl_score = 18
    ∧ (calculate_score (e2win "A" 4) e2rest).win_rate_score = 20
    ∧ (calculate_score (e2win "A" 4) e2rest).timing_score = 18
    ∧ (calculate_score (e2win "A" 4) e2rest).consistency_score = 14
    ∧ (calculate_score (e2win "A" 4) e2rest).total_score = 70 := by
  decide

/-- C3: after a partial take-profit sell, the executor and position manager
leave the persisted position's `amount_tokens_held` unchanged and leave
every `hit` flag false (the flip happens only on the in-memory list), so the
same take-profit level fires again on the next position-manager tick.  The
run: an open human-ladder position (entry $1, 1 SOL, 1,000,000 tokens),
price $2 on two consecutive ticks; the sell succeeds and returns 1.5 SOL. -/
theorem C3_tp_not_persisted :
    -- the first tick fires the 2.0x level, selling the 50% fraction
    ((check_position liveSettings dbTP posTP (some 2) sellEnvOk 3600).2.2.1
        = some (1/2, "take_profit")
    -- the sell trade is recorded
    ∧ (check_position liveSettings dbTP posTP (some 2) sellEnvOk 3600).2.1.trades.map
        (fun t => (t.side, t.amount_sol, t.sell_reason))
        = [("sell", 3/2, some "take_profit")]
    -- but the persisted position still holds all tokens, is still open, and
    -- every take-profit hit flag is still false
    ∧ (get_position_by_token
          (check_position liveSettings dbTP posTP (some 2) sellEnvOk 3600).2.1 "M").map
        (fun p => (p.amount_tokens_held, p.status, p.take_profit_levels.map TPLevel.hit))
        = some (1000000, "open", [false, false, false]))
    -- consequently a second tick at the same price fires the same level again
    ∧ (get_position_by_token
          (check_position liveSettings dbTP posTP (some 2) sellEnvOk 3600).2.1 "M").map
        (fun p => (check_position liveSettings
            (check_position liveSettings dbTP posTP (some 2) sellEnvOk 3600).2.1
            p (some 2) sellEnvOk 7200).2.2.1)
        = some (some (1/2, "take_profit")) := by
  decide

/-- C7 counterexample: closing an already-closed position is not a no-op.
`posClosed` was closed with reason `stop_loss`, realized PnL −1, closed at
t=100; a second `close_position` with reason `manual`, PnL 5 at t=200
overwrites `close_reason`, `realized_pnl_sol` and `closed_at` (only `status`
stays `closed`). -/
theorem C7_second_close_overwrites :
    (dbClosed.positions.map fun p => (p.status, p.close_reason, p.realized_pnl_sol, p.closed_at))
      = [("closed", some "stop_loss", -1, some 100)]
    ∧ ((close_position dbClosed 1 "manual" 5 200).positions.map
        fun p => (p.status, p.close_reason, p.realized_pnl_sol, p.closed_at))
      = [("closed", some "manual", 5, some 200)]
    ∧ (some "manual" : Option String) ≠ some "stop_loss"
    ∧ (5 : ℚ) ≠ -1 ∧ (some 200 : Option ℚ) ≠ some 100 := by
  decide

/-- C7 as amended: `close_position` updates the row with the given id
unconditionally — also when that row is already closed, the second call
keeps `status = "closed"` but overwrites `close_reason`, `realized_pnl_sol`
and `closed_at` with the new values. -/
theorem C7_amended (db : DB) (pid : ℕ) (reason : String) (pnl now : ℚ)
    (p : Position) (hp : p ∈ db.positions) (hid : p.id = pid) :
    { p with status := "closed", close_reason := some reason,
             realized_pnl_sol := pnl, closed_at := some now } ∈
      (close_position db pid reason pnl now).positions := by
  unfold close_position
  refine List.mem_map.mpr ⟨p, hp, ?_⟩
  unfold close_row
  rw [if_pos hid]

/-- C7 witness: the amended statement at the concrete second close of
`posClosed`. -/
theorem C7_amended_witness :
    { posClosed with status := "closed", close_reason := some "manual",
                     realized_pnl_sol := 5, closed_at := some 200 } ∈
      (close_position dbClosed 1 "manual" 5 200).positions :=
  C7_amended dbClosed 1 "manual" 5 200 posClosed (by decide) rfl

/-- C8 counterexample: the scorer does not compare the converted provider
profit with the locally aggregated PnL.  With local PnL 100 SOL and a
provider 30-day profit of 150 USD (= 1 SOL converted), the converted amount
does not exceed the local PnL, so the claim (and the spec) prescribe
effective PnL 100 (pnl band 25); the code nevertheless uses 1 (pnl band 8). -/
theorem C8_provider_pnl_not_compared :
    local_total_pnl [c8trade] = 100
    ∧ (calculate_score c8trade []).total_pnl_sol = 1
    ∧ (calculate_score c8trade []).pnl_score = 8
    ∧ effective_pnl_per_spec 100 150 = 100
    ∧ roundTo 1 (score_pnl (effective_pnl_per_spec 100 150)) = 25
    ∧ ((8 : ℚ) ≠ 25 ∧ (1 : ℚ) ≠ 100) := by
  decide

/-- C8 as amended: the effective PnL fed to the pnl bands is the provider's
30-day profit divided by the hard-coded reference rate 150 whenever that
profit is positive — even when the converted amount is below the locally
aggregated PnL; when it is not positive, the overall provider profit is used
the same way; only when both are non-positive does the locally aggregated
PnL apply. -/
theorem C8_amended (t0 : TradeRec) (rest : List TradeRec) :
    (0 < t0.gmgn_realized_profit_30d →
      (calculate_score t0 rest).total_pnl_sol = roundTo 4 (t0.gmgn_realized_profit_30d / 150)
      ∧ (calculate_score t0 rest).pnl_score = roundTo 1 (score_pnl (t0.gmgn_realized_profit_30d / 150)))
    ∧ (t0.gmgn_realized_profit_30d ≤ 0 → 0 < t0.gmgn_realized_profit →
      (calculate_score t0 rest).total_pnl_sol = roundTo 4 (t0.gmgn_realized_profit / 150)
      ∧ (calculate_score t0 rest).pnl_score = roundTo 1 (score_pnl (t0.gmgn_realized_profit / 150)))
    ∧ (t0.gmgn_realized_profit_30d ≤ 0 → t0.gmgn_realized_profit ≤ 0 →
      (calculate_score t0 rest).total_pnl_sol = roundTo 4 (local_total_pnl (t0 :: rest))
      ∧ (calculate_score t0 rest).pnl_score = roundTo 1 (score_pnl (local_total_pnl (t0 :: rest)))) := by
  refine ⟨fun h30 => ?_, fun h30 hp => ?_, fun h30 hp => ?_⟩
  · simp [calculate_score, h30]
  · simp [calculate_score, not_lt.mpr h30, hp]
  · simp [calculate_score, not_lt.mpr h30, not_lt.mpr hp]

/-- C8 witness: the amended statement at `c8trade` (provider 30-day profit
150 USD, local PnL 100 SOL). -/
theorem C8_amended_witness :
    (calculate_score c8trade []).total_pnl_sol = roundTo 4 (c8trade.gmgn_realized_profit_30d / 150)
    ∧ (calculate_score c8trade []).pnl_score
        = roundTo 1 (score_pnl (c8trade.gmgn_realized_profit_30d / 150)) :=
  (C8_amended c8trade []).1 (by decide)

/-- C2 counterexample: `_execute_buy` marks the signal executed before the
`if confirmed` branch, so when the swap broadcasts but never confirms the
signal ends `executed = true` while its linked trade has status
`unconfirmed` — neither `confirmed` nor `dry_run`.  The run: live mode, one
pending signal, quote and swap succeed, confirmation fails. -/
theorem C2_unconfirmed_marked_executed :
    (execute_buy liveSettings dbSig1 sigM envUnconfirmed 0).2.1.signals
      = [{ id := 1, executed := true, trade_id := some 1, skip_reason := none }]
    ∧ (execute_buy liveSettings dbSig1 sigM envUnconfirmed 0).2.1.trades.map
        (fun t => (t.id, t.status)) = [(1, "unconfirmed")]
    ∧ ("unconfirmed" ≠ "confirmed" ∧ "unconfirmed" ≠ "dry_run")
    ∧ ¬ signalTradeLinkInv ["confirmed", "dry_run"]
        (execute_buy liveSettings dbSig1 sigM envUnconfirmed 0).2.1 := by
  decide

/-- C4 counterexample: a confirmed live buy of a human-source signal opens a
position with stop-loss `entry × settings.stop_loss_multiplier` (default
0.5) and the global settings ladder `[(2.0, 0.5), (5.0, 1.0)]`, not the
human exit rules (stop-loss `entry × 0.6`, ladder
`[(2.0, 0.5), (4.0, 0.5), (8.0, 1.0)]`). -/
theorem C4_live_buy_ignores_exit_rules :
    sigM.signal_source_type = some "human"
    ∧ ((execute_buy liveSettings dbSig1 sigM envConfirmed 0).2.1.positions.map
        fun p => (p.entry_price_usd, p.stop_loss_price, p.take_profit_levels))
        = [(1, some (1/2),
            [{ multiplier := 2, pct := 1/2, hit := false },
             { multiplier := 5, pct := 1, hit := false }])]
    ∧ (1 : ℚ) * (EXIT_RULES "human").sl_multiplier = 3/5
    ∧ (some (1/2) : Option ℚ) ≠ some (3/5)
    ∧ [((2:ℚ), (1:ℚ)/2), (5, 1)] ≠ (EXIT_RULES "human").tp_levels := by
  decide

/-- C5 counterexample: the validator's sizing step applies no cap.  With a
base size of 0.04 SOL, a consensus multiplier of 2 and the default
`max_position_size_sol = 0.05`, a consensus signal is sized at 0.08 SOL,
exceeding the cap. -/
theorem C5_no_cap_applied :
    (validate_signal { liveSettings with default_position_size_sol := 1/25 } valCfg {}
        valSig (some valTd) false "human" [("V", 0)] 10).1
      = .trade "consensus" (2/25) 2
    ∧ ({ liveSettings with default_position_size_sol := 1/25 } : Settings).max_position_size_sol
      = 1/20
    ∧ ¬ ((2:ℚ)/25 ≤ 1/20) := by
  decide

/-- C5 as amended: whenever `validate_signal` lets a signal through, the
chosen position size is exactly base × (consensus multiplier | bot
multiplier | 1) by source type, with no cap at `max_position_size_sol`. -/
theorem C5_amended (st : Settings) (cfg : GeneratorConfig) (db : DB)
    (sig : RawSignal) (td : Option TokenData) (hp : Bool) (wt : String)
    (recent : List (String × ℚ)) (now : ℚ) (stype : String) (size : ℚ) (cc : ℕ)
    (h : (validate_signal st cfg db sig td hp wt recent now).1
          = .trade stype size cc) :
    size = (if stype = "consensus" then
              st.default_position_size_sol * cfg.consensus_position_multiplier
            else if stype = "bot" then
              st.default_position_size_sol * cfg.bot_position_multiplier
            else st.default_position_size_sol) := by
  unfold validate_signal at h
  by_cases c1 : st.trading_paused = true
  · rw [if_pos c1] at h; exact ValidateResult.noConfusion h
  rw [if_neg c1] at h
  by_cases c2 : sig.token_mint ∈ st.token_blacklist
  · rw [if_pos c2] at h; exact ValidateResult.noConfusion h
  rw [if_neg c2] at h
  by_cases c3 : st.max_open_positions ≤ get_open_position_count db
  · rw [if_pos c3] at h; exact ValidateResult.noConfusion h
  rw [if_neg c3] at h
  by_cases c4 : get_todays_pnl db ≤ -st.max_daily_loss_sol
  · rw [if_pos c4] at h; exact ValidateResult.noConfusion h
  rw [if_neg c4] at h
  by_cases c5 : ((get_position_by_token db sig.token_mint).any
      (fun existing => st.max_position_size_sol ≤ existing.amount_sol_invested)) = true
  · rw [if_pos c5] at h; exact ValidateResult.noConfusion h
  rw [if_neg c5] at h
  by_cases c6 : (td.any (fun td => td.liquidity_usd < st.min_liquidity_usd)) = true
  · rw [if_pos c6] at h; exact ValidateResult.noConfusion h
  rw [if_neg c6] at h
  by_cases c7 : (td.any (fun td => 0 < td.market_cap_usd
      && td.market_cap_usd < st.min_copy_trade_mcap_usd)) = true
  · rw [if_pos c7] at h; exact ValidateResult.noConfusion h
  rw [if_neg c7] at h
  by_cases c8 : (td.any (fun td => 0 < td.market_cap_usd
      && st.max_copy_trade_mcap_usd < td.market_cap_usd)) = true
  · rw [if_pos c8] at h; exact ValidateResult.noConfusion h
  rw [if_neg c8] at h
  by_cases c9 : hp = true
  · rw [if_pos c9] at h; exact ValidateResult.noConfusion h
  rw [if_neg c9] at h
  dsimp only at h
  injection h with hs hsize hcc
  subst hs
  subst hsize
  rfl

/-- C5 witness: the amended statement at the consensus counterexample run. -/
theorem C5_amended_witness :
    (2 : ℚ)/25 = (if "consensus" = "consensus" then
        ({ liveSettings with default_position_size_sol := 1/25 } : Settings).default_position_size_sol
          * valCfg.consensus_position_multiplier
      else if "consensus" = "bot" then
        ({ liveSettings with default_position_size_sol := 1/25 } : Settings).default_position_size_sol
          * valCfg.bot_position_multiplier
      else ({ liveSettings with default_position_size_sol := 1/25 } : Settings).default_position_size_sol) :=
  C5_amended { liveSettings with default_position_size_sol := 1/25 } valCfg {}
    valSig (some valTd) false "human" [("V", 0)] 10 "consensus" (2/25) 2 (by decide)

/-- C1 counterexample: the pipeline does not preserve the one-open-position-
per-mint invariant.  From a store holding one open position on `M` with
0.01 SOL invested (below the 0.05 cap), the validator lets a buy signal on
`M` through, `pre_trade_check` allows it, and `open_position` inserts a
second open row on `M`. -/
theorem C1_second_position_same_mint :
    uniqueOpenInv dbPosM
    ∧ (validate_signal liveSettings valCfg dbPosM valSig (some valTd) false "human" [] 0).1
        = .trade "human" (1/100) 1
    ∧ (pre_trade_check liveSettings dbPosM "M" 1).1 = none
    ∧ ¬ uniqueOpenInv (open_position dbPosM pdM 5).1
    ∧ countOpen (open_position dbPosM pdM 5).1 "M" = 2 := by
  decide

/-- Rows that survive the open filter after a `close_position` are a sublist
of the rows that survived it before. -/
theorem close_row_filter_sublist (pid : ℕ) (reason : String) (pnl now : ℚ) :
    ∀ l : List Position,
      List.Sublist
        ((l.map (close_row pid reason pnl now)).filter fun p => p.status == "open")
        (l.filter fun p => p.status == "open") := by
  intro l
  induction l with
  | nil => exact List.nil_sublist _
  | cons a l ih =>
    by_cases hid : a.id = pid
    · have hrow : close_row pid reason pnl now a
          = { a with status := "closed", close_reason := some reason,
                     realized_pnl_sol := pnl, closed_at := some now } := by
        unfold close_row
        exact if_pos hid
      cases ha : a.status == "open"
      · simp only [List.map_cons, List.filter_cons, hrow, ha]
        simp only [show (("closed" : String) == "open") = false from rfl]
        simpa using ih
      · simp only [List.map_cons, List.filter_cons, hrow, ha]
        simp only [show (("closed" : String) == "open") = false from rfl]
        simpa using ih.cons a
    · have hrow : close_row pid reason pnl now a = a := by
        unfold close_row
        exact if_neg hid
      cases ha : a.status == "open"
      · simp only [List.map_cons, List.filter_cons, hrow, ha]
        simpa using ih
      · simp only [List.map_cons, List.filter_cons, hrow, ha]
        simpa using ih.cons₂ a

/-- C1 as amended: signal validation touches no position row and
`close_position` preserves the invariant, but `open_position` inserts a new
open row on its mint unconditionally — it increments the number of open
positions on that mint by exactly one whatever is already there — and
`pre_trade_check` allows a buy on a mint with an existing open position
whenever its invested amount is below `max_position_size_sol`, so two open
positions on one mint are reachable. -/
theorem C1_amended :
    (∀ st cfg db sig td hp wt recent now,
      ((validate_signal st cfg db sig td hp wt recent now).2.2.1).positions = db.positions)
    ∧ (∀ (db : DB) (pid : ℕ) (reason : String) (pnl now : ℚ),
        uniqueOpenInv db → uniqueOpenInv (close_position db pid reason pnl now))
    ∧ (∀ (db : DB) (pd : PositionData) (now : ℚ) (m : String),
        countOpen (open_position db pd now).1 m
          = countOpen db m + (if pd.token_mint == m then 1 else 0)) := by
  refine ⟨?_, ?_, ?_⟩
  · intro st cfg db sig td hp wt recent now
    unfold validate_signal
    by_cases c1 : st.trading_paused = true
    · rw [if_pos c1]
      try rfl
    rw [if_neg c1]
    by_cases c2 : sig.token_mint ∈ st.token_blacklist
    · rw [if_pos c2]
      try rfl
    rw [if_neg c2]
    by_cases c3 : st.max_open_positions ≤ get_open_position_count db
    · rw [if_pos c3]
      try rfl
    rw [if_neg c3]
    by_cases c4 : get_todays_pnl db ≤ -st.max_daily_loss_sol
    · rw [if_pos c4]
      try rfl
    rw [if_neg c4]
    by_cases c5 : ((get_position_by_token db sig.token_mint).any
        (fun existing => st.max_position_size_sol ≤ existing.amount_sol_invested)) = true
    · rw [if_pos c5]
      try rfl
    rw [if_neg c5]
    by_cases c6 : (td.any (fun td => td.liquidity_usd < st.min_liquidity_usd)) = true
    · rw [if_pos c6]
      try rfl
    rw [if_neg c6]
    by_cases c7 : (td.any (fun td => 0 < td.market_cap_usd
        && td.market_cap_usd < st.min_copy_trade_mcap_usd)) = true
    · rw [if_pos c7]
      try rfl
    rw [if_neg c7]
    by_cases c8 : (td.any (fun td => 0 < td.market_cap_usd
        && st.max_copy_trade_mcap_usd < td.market_cap_usd)) = true
    · rw [if_pos c8]
      try rfl
    rw [if_neg c8]
    by_cases c9 : hp = true
    · rw [if_pos c9]
      try rfl
    rw [if_neg c9]
    try rfl
  · intro db pid reason pnl now h
    exact List.Pairwise.sublist (close_row_filter_sublist pid reason pnl now db.positions) h
  · intro db pd now m
    unfold open_position countOpen
    simp only [List.filter_append, List.length_append, List.filter_cons, List.filter_nil]
    cases hm : pd.token_mint == m <;> simp [hm]

/-- C1 witness: the amended statement at the concrete store `dbPosM` (one
open position on `M`): a close preserves the invariant and a second open on
`M` raises the open count on `M` from 1 to 2. -/
theorem C1_amended_witness :
    uniqueOpenInv (close_position dbPosM 1 "manual" 0 7)
    ∧ countOpen (open_position dbPosM pdM 5).1 "M"
        = countOpen dbPosM "M" + (if pdM.token_mint == "M" then 1 else 0) :=
  ⟨C1_amended.2.1 dbPosM 1 "manual" 0 7 (by decide),
   C1_amended.2.2 dbPosM pdM 5 "M"⟩

/-- `mark_signal_skipped` changes no `executed` flag, no `trade_id`, and no
trade row, so it preserves the executed-signal/trade link invariant. -/
theorem linkInv_mark_skipped (A : List String) (db : DB) (sid : ℕ) (r : String)
    (h : signalTradeLinkInv A db) :
    signalTradeLinkInv A (mark_signal_skipped db sid r) := by
  intro s hs hex
  unfold mark_signal_skipped at hs
  obtain ⟨s0, hs0, hmap⟩ := List.mem_map.mp hs
  by_cases hc : s0.id = sid
  · rw [if_pos hc] at hmap
    subst hmap
    exact h s0 hs0 hex
  · rw [if_neg hc] at hmap
    subst hmap
    exact h s0 hs0 hex

/-- `insert_trade` only appends a trade row, so it preserves the
executed-signal/trade link invariant. -/
theorem linkInv_insert_trade (A : List String) (db : DB) (td : TradeData)
    (h : signalTradeLinkInv A db) :
    signalTradeLinkInv A (insert_trade db td).1 := by
  intro s hs hex
  obtain ⟨t, ht, h1, h2⟩ := h s hs hex
  exact ⟨t, List.mem_append_left _ ht, h1, h2⟩

/-- `open_position` touches neither signals nor trades. -/
theorem linkInv_open_position (A : List String) (db : DB) (pd : PositionData)
    (now : ℚ) (h : signalTradeLinkInv A db) :
    signalTradeLinkInv A (open_position db pd now).1 :=
  h

/-- The row just inserted by `insert_trade` is in the store, carries the
returned id, and has the status of its input. -/
theorem insert_trade_mem_self (db : DB) (td : TradeData) :
    ∃ t ∈ (insert_trade db td).1.trades,
      t.id = (insert_trade db td).2 ∧ t.status = td.status := by
  exact ⟨_, List.mem_append_right _ (List.mem_cons_self _ _), rfl, rfl⟩

/-- `mark_signal_executed` preserves the link invariant provided the trade id
it writes belongs to a trade row whose status is in the allowed set. -/
theorem linkInv_mark_executed (A : List String) (db : DB) (sid tid : ℕ)
    (h : signalTradeLinkInv A db)
    (ht : ∃ t ∈ db.trades, t.id = tid ∧ t.status ∈ A) :
    signalTradeLinkInv A (mark_signal_executed db sid tid) := by
  intro s hs hex
  unfold mark_signal_executed at hs
  obtain ⟨s0, hs0, hmap⟩ := List.mem_map.mp hs
  by_cases hc : s0.id = sid
  · rw [if_pos hc] at hmap
    subst hmap
    obtain ⟨t, htm, hid, hst⟩ := ht
    exact ⟨t, htm, by rw [hid], hst⟩
  · rw [if_neg hc] at hmap
    subst hmap
    exact h s0 hs0 hex

/-- Inserting a trade whose status is allowed and then marking a signal
executed with the returned trade id preserves the link invariant. -/
theorem linkInv_insert_then_mark (A : List String) (db : DB) (td : TradeData)
    (sid : ℕ) (hA : td.status ∈ A) (h : signalTradeLinkInv A db) :
    signalTradeLinkInv A
      (mark_signal_executed (insert_trade db td).1 sid (insert_trade db td).2) := by
  apply linkInv_mark_executed
  · exact linkInv_insert_trade A db td h
  · obtain ⟨t, ht, hid, hst⟩ := insert_trade_mem_self db td
    exact ⟨t, ht, hid, hst ▸ hA⟩

/-- C2 as amended: every execution path keeps the invariant that an executed
signal links to an existing trade row whose status is `confirmed`,
`unconfirmed` or `dry_run` (the claim's status set, which omitted
`unconfirmed`, fails — see the counterexample). -/
theorem C2_amended (st : Settings) (db : DB) (sig : ExecSignal) (env : BuyEnv)
    (sol_price : Option ℚ) (now : ℚ)
    (h : signalTradeLinkInv ["confirmed", "unconfirmed", "dry_run"] db) :
    signalTradeLinkInv ["confirmed", "unconfirmed", "dry_run"]
      (execute_buy st db sig env now).2.1
    ∧ signalTradeLinkInv ["confirmed", "unconfirmed", "dry_run"]
      (dry_run_buy st db sig sol_price now).2.1 := by
  constructor
  · unfold execute_buy
    rcases hpt : pre_trade_check st db sig.token_mint env.balance with ⟨d, st1⟩
    cases d with
    | some denial =>
      dsimp only
      cases hsid : signalIdTruthy sig.signal_id with
      | some sid => exact linkInv_mark_skipped _ db sid _ h
      | none => exact h
    | none =>
      dsimp only
      cases hq : env.quote with
      | none => exact linkInv_insert_trade _ db _ h
      | some q =>
        cases htx : env.swap_signature with
        | none => exact linkInv_insert_trade _ db _ h
        | some tx =>
          cases hsid : signalIdTruthy sig.signal_id with
          | none =>
            cases hconf : env.confirm with
            | false => exact linkInv_insert_trade _ db _ h
            | true =>
              exact linkInv_open_position _ _ _ now (linkInv_insert_trade _ db _ h)
          | some sid =>
            cases hconf : env.confirm with
            | false =>
              exact linkInv_insert_then_mark _ db _ sid (by simp) h
            | true =>
              exact linkInv_open_position _ _ _ now
                (linkInv_insert_then_mark _ db _ sid (by simp) h)
  · unfold dry_run_buy
    dsimp only
    cases hsid : signalIdTruthy sig.signal_id with
    | none =>
      split
      · exact linkInv_insert_trade _ db _ h
      · exact linkInv_open_position _ _ _ now (linkInv_insert_trade _ db _ h)
    | some sid =>
      split
      · exact linkInv_insert_then_mark _ db _ sid (by simp) h
      · exact linkInv_open_position _ _ _ now
          (linkInv_insert_then_mark _ db _ sid (by simp) h)

/-- C2 witness: the amended invariant holds after the unconfirmed live buy
and after a dry-run buy, starting from the store with one pending signal. -/
theorem C2_amended_witness :
    signalTradeLinkInv ["confirmed", "unconfirmed", "dry_run"]
      (execute_buy liveSettings dbSig1 sigM envUnconfirmed 0).2.1
    ∧ signalTradeLinkInv ["confirmed", "unconfirmed", "dry_run"]
      (dry_run_buy liveSettings dbSig1 sigM (some 150) 0).2.1 :=
  C2_amended liveSettings dbSig1 sigM envUnconfirmed (some 150) 0 (by decide)

/-- C4 as amended: a confirmed live buy always opens its position with
stop-loss `entry × settings.stop_loss_multiplier` and the take-profit ladder
zipped from `settings.take_profit_levels`/`take_profit_percentages` with all
`hit` flags false — independent of the signal's source type; the per-source
`EXIT_RULES` table is not consulted on this path. -/
theorem C4_amended (st : Settings) (db : DB) (sig : ExecSignal) (env : BuyEnv)
    (now : ℚ) (q : Quote) (tx : String) (price : ℚ)
    (hq : env.quote = some q) (htx : env.swap_signature = some tx)
    (hconf : env.confirm = true)
    (hallow : (pre_trade_check st db sig.token_mint env.balance).1 = none)
    (hprice : (match sig.token_data with
               | some td => td.price_usd
               | none => 0) = price) :
    ((execute_buy st db sig env now).2.1.positions).getLast? = some
      { id := db.positions.length + 1,
        token_mint := sig.token_mint, token_symbol := sig.token_symbol,
        entry_price_usd := price, current_price_usd := none,
        amount_sol_invested :=
          calculate_position_size st (sig.confidence.getD (1/2)) env.balance,
        amount_tokens_held := (q.outAmount : ℚ),
        take_profit_levels := tp_levels_from_settings st,
        stop_loss_price :=
          if price ≠ 0 then some (price * st.stop_loss_multiplier) else none,
        triggered_by_wallet := some sig.wallet_address,
        status := "open", close_reason := none, realized_pnl_sol := 0,
        unrealized_pnl_sol := 0, opened_at := now, closed_at := none,
        last_checked_at := none } := by
  subst hprice
  unfold execute_buy
  rcases hpt : pre_trade_check st db sig.token_mint env.balance with ⟨d, st1⟩
  cases d with
  | some denial =>
    rw [hpt] at hallow
    exact absurd hallow (by simp)
  | none =>
    dsimp only
    rw [hq, htx, hconf]
    cases hsid : signalIdTruthy sig.signal_id with
    | none =>
      simp only [insert_trade, open_position, if_true, ite_true]
      rw [List.getLast?_concat]
    | some sid =>
      simp only [insert_trade, mark_signal_executed, open_position, if_true, ite_true]
      rw [List.getLast?_concat]

/-- C4 witness: the amended statement at the confirmed concrete buy (human
source type, entry price $1, default settings). -/
theorem C4_amended_witness :
    ((execute_buy liveSettings dbSig1 sigM envConfirmed 0).2.1.positions).getLast? = some
      { id := dbSig1.positions.length + 1,
        token_mint := sigM.token_mint, token_symbol := sigM.token_symbol,
        entry_price_usd := 1, current_price_usd := none,
        amount_sol_invested :=
          calculate_position_size liveSettings (sigM.confidence.getD (1/2)) envConfirmed.balance,
        amount_tokens_held := ((1000 : ℤ) : ℚ),
        take_profit_levels := tp_levels_from_settings liveSettings,
        stop_loss_price :=
          if (1 : ℚ) ≠ 0 then some (1 * liveSettings.stop_loss_multiplier) else none,
        triggered_by_wallet := some sigM.wallet_address,
        status := "open", close_reason := none, realized_pnl_sol := 0,
        unrealized_pnl_sol := 0, opened_at := 0, closed_at := none,
        last_checked_at := none } :=
  C4_amended liveSettings dbSig1 sigM envConfirmed 0 { outAmount := 1000 } "tx" 1
    rfl rfl rfl (by decide) (by decide)

/-- With the kill switch set, `pre_trade_check` denies immediately and
leaves the settings unchanged. -/
theorem pre_trade_killswitch (st : Settings) (db : DB) (mint : String)
    (bal : ℚ) (h : st.trading_paused = true) :
    pre_trade_check st db mint bal = (some .killSwitch, st) := by
  unfold pre_trade_check
  rw [if_pos h]

/-- `post_trade_check` never clears the kill switch. -/
theorem post_trade_paused_mono (st : Settings) (db : DB)
    (h : st.trading_paused = true) :
    (post_trade_check st db).trading_paused = true := by
  unfold post_trade_check
  split
  · rfl
  · exact h

/-- `pre_trade_check` never clears the kill switch. -/
theorem pre_trade_paused_mono (st : Settings) (db : DB) (mint : String)
    (bal : ℚ) (h : st.trading_paused = true) :
    ((pre_trade_check st db mint bal).2).trading_paused = true := by
  rw [pre_trade_killswitch st db mint bal h]
  exact h

/-- `validate_signal` never clears the kill switch. -/
theorem validate_paused_mono (st : Settings) (cfg : GeneratorConfig) (db : DB)
    (sig : RawSignal) (td : Option TokenData) (hp : Bool) (wt : String)
    (recent : List (String × ℚ)) (now : ℚ) (h : st.trading_paused = true) :
    ((validate_signal st cfg db sig td hp wt recent now).2.1).trading_paused = true := by
  unfold validate_signal
  rw [if_pos h]
  exact h

/-- `execute_buy` never clears the kill switch. -/
theorem execute_buy_paused_mono (st : Settings) (db : DB) (sig : ExecSignal)
    (env : BuyEnv) (now : ℚ) (h : st.trading_paused = true) :
    ((execute_buy st db sig env now).1).trading_paused = true := by
  unfold execute_buy
  rw [pre_trade_killswitch st db sig.token_mint env.balance h]
  exact h

/-- `dry_run_buy` never touches the kill switch. -/
theorem dry_run_buy_paused_mono (st : Settings) (db : DB) (sig : ExecSignal)
    (sol_price : Option ℚ) (now : ℚ) (h : st.trading_paused = true) :
    ((dry_run_buy st db sig sol_price now).1).trading_paused = true := by
  unfold dry_run_buy
  dsimp only
  split
  · exact h
  · exact h

/-- `execute_sell` never clears the kill switch. -/
theorem execute_sell_paused_mono (st : Settings) (db : DB) (position : Position)
    (pct : ℚ) (reason : String) (env : SellEnv) (now : ℚ)
    (h : st.trading_paused = true) :
    ((execute_sell st db position pct reason env now).1).trading_paused = true := by
  unfold execute_sell
  dsimp only
  repeat' split
  all_goals first
    | exact h
    | exact post_trade_paused_mono _ _ h

/-- `check_position` never clears the kill switch. -/
theorem check_position_paused_mono (st : Settings) (db : DB)
    (position : Position) (price : Option ℚ) (env : SellEnv) (now : ℚ)
    (h : st.trading_paused = true) :
    ((check_position st db position price env now).1).trading_paused = true := by
  unfold check_position
  dsimp only
  repeat' split
  all_goals first
    | exact h
    | exact execute_sell_paused_mono _ _ _ _ _ _ _ h

/-- No pipeline operation clears the kill switch. -/
theorem step_paused_mono (st : Settings) (op : PipelineOp)
    (h : st.trading_paused = true) :
    (step_paused st op).trading_paused = true := by
  cases op with
  | preTrade db mint bal => exact pre_trade_paused_mono st db mint bal h
  | postTrade db => exact post_trade_paused_mono st db h
  | validate cfg db sig td hp wt recent now =>
    exact validate_paused_mono st cfg db sig td hp wt recent now h
  | buy db sig env now => exact execute_buy_paused_mono st db sig env now h
  | dryBuy db sig sp now => exact dry_run_buy_paused_mono st db sig sp now h
  | sell db pos pct reason env now =>
    exact execute_sell_paused_mono st db pos pct reason env now h
  | tick db pos price env now =>
    exact check_position_paused_mono st db pos price env now h

/-- C6: the kill switch sticks.  (a) A `pre_trade_check` that observes
today's PnL at or below minus the daily loss limit (with trading live and
not yet paused) denies and sets `trading_paused`; (b) once `trading_paused`
is set, no sequence of pipeline operations clears it; (c) with
`trading_paused` set, every `pre_trade_check` denies with the kill-switch
reason, for any signal. -/
theorem C6_kill_switch_sticks :
    (∀ (st : Settings) (db : DB) (mint : String) (bal : ℚ),
      st.trading_paused = false → st.trading_mode = "live" →
      get_todays_pnl db ≤ -st.max_daily_loss_sol →
      pre_trade_check st db mint bal
        = (some .dailyLossLimit, { st with trading_paused := true }))
    ∧ (∀ (st : Settings) (ops : List PipelineOp), st.trading_paused = true →
        ((ops.foldl step_paused st).trading_paused) = true)
    ∧ (∀ (st : Settings) (db : DB) (mint : String) (bal : ℚ),
        st.trading_paused = true →
        pre_trade_check st db mint bal = (some .killSwitch, st)) := by
  refine ⟨?_, ?_, ?_⟩
  · intro st db mint bal h1 h2 h3
    unfold pre_trade_check
    rw [if_neg (by simp [h1]), if_neg (by simp [h2]), if_pos h3]
  · intro st ops h
    induction ops generalizing st with
    | nil => exact h
    | cons op ops ih => exact ih (step_paused st op) (step_paused_mono st op h)
  · intro st db mint bal h
    exact pre_trade_killswitch st db mint bal h

/-- C6 witness: the three parts at concrete inputs — the breach observed on
the confirmed-buys-only store engages the switch; a paused state stays
paused across a pipeline trace; a paused `pre_trade_check` denies. -/
theorem C6_kill_switch_sticks_witness :
    pre_trade_check liveSettings dbBuysOnly "M" 1
      = (some .dailyLossLimit, { liveSettings with trading_paused := true })
    ∧ (([PipelineOp.postTrade dbBuysOnly,
         PipelineOp.preTrade dbBuysOnly "M" 1].foldl step_paused
          { liveSettings with trading_paused := true }).trading_paused) = true
    ∧ pre_trade_check { liveSettings with trading_paused := true } dbBuysOnly "M" 1
      = (some .killSwitch, { liveSettings with trading_paused := true }) :=
  ⟨C6_kill_switch_sticks.1 liveSettings dbBuysOnly "M" 1 rfl rfl (by decide),
   C6_kill_switch_sticks.2.1 { liveSettings with trading_paused := true }
     [PipelineOp.postTrade dbBuysOnly, PipelineOp.preTrade dbBuysOnly "M" 1] rfl,
   C6_kill_switch_sticks.2.2 { liveSettings with trading_paused := true }
     dbBuysOnly "M" 1 rfl⟩

/-- C10: today's PnL as consumed by the circuit breaker.  (a) For every
store, `get_todays_pnl` equals the sum of `amount_sol` over today's
confirmed sell trades minus the sum over today's confirmed buy trades —
pending, unconfirmed, failed and dry-run trades are excluded by the
`status = 'confirmed'` filter; (b) adding one confirmed buy from today
lowers today's PnL by its full amount; (c) confirmed buys alone (two 0.25
SOL buys, no sell) reach minus the 0.5 SOL daily loss limit and engage the
kill switch in `pre_trade_check`. -/
theorem C10_todays_pnl :
    (∀ db : DB, get_todays_pnl db =
        ((db.trades.filter fun t =>
            t.created_today && t.status == "confirmed" && t.side == "sell").map
          Trade.amount_sol).sum
        - ((db.trades.filter fun t =>
            t.created_today && t.status == "confirmed" && t.side == "buy").map
          Trade.amount_sol).sum)
    ∧ (∀ (db : DB) (t : Trade),
        t.created_today = true → t.status = "confirmed" → t.side = "buy" →
        get_todays_pnl { db with trades := t :: db.trades }
          = get_todays_pnl db - t.amount_sol)
    ∧ ((∀ t ∈ dbBuysOnly.trades,
          t.side = "buy" ∧ t.status = "confirmed" ∧ t.created_today = true)
      ∧ get_todays_pnl dbBuysOnly = -(1/2)
      ∧ liveSettings.max_daily_loss_sol = 1/2
      ∧ pre_trade_check liveSettings dbBuysOnly "M" 1
          = (some .dailyLossLimit, { liveSettings with trading_paused := true })) := by
  refine ⟨?_, ?_, by decide⟩
  · intro db
    unfold get_todays_pnl
    induction db.trades with
    | nil => simp
    | cons a l ih =>
      simp only [List.filter_cons]
      cases hc : a.created_today <;> cases hs : a.status == "confirmed" <;>
        simp only [hc, hs, Bool.false_and, Bool.true_and, Bool.and_false,
          Bool.and_true, Bool.false_eq_true, if_false, eq_self_iff_true, if_true]
      · exact ih
      · exact ih
      · exact ih
      · cases h3 : a.side == "sell" <;> cases h4 : a.side == "buy"
        · simp only [h3, h4, Bool.false_eq_true, if_false, List.map_cons,
            List.sum_cons, ih]
          ring
        · simp only [h3, h4, Bool.false_eq_true, if_false, eq_self_iff_true,
            if_true, List.map_cons, List.sum_cons, ih]
          ring
        · simp only [h3, h4, Bool.false_eq_true, if_false, eq_self_iff_true,
            if_true, List.map_cons, List.sum_cons, ih]
          ring
        · exact absurd ((eq_of_beq h3).symm.trans (eq_of_beq h4)) (by decide)
  · intro db t h1 h2 h3
    unfold get_todays_pnl
    simp only [List.filter_cons, h1, h2, h3, eq_self_iff_true, if_true,
      Bool.true_and, Bool.and_true, List.map_cons, List.sum_cons]
    have hsell : (("buy" : String) == "sell") = false := by decide
    have hbuy : (("buy" : String) == "buy") = true := by decide
    have hbeq : (("confirmed" : String) == "confirmed") = true := by decide
    simp only [hsell, hbuy, hbeq, Bool.true_and, Bool.false_eq_true, if_false,
      eq_self_iff_true, if_true]
    simp only [List.map_cons, List.sum_cons, h3, hsell, hbuy, Bool.false_eq_true,
      if_false, eq_self_iff_true, if_true]
    ring

/-- C10 witness: part (b) at a concrete confirmed 0.25 SOL buy prepended to
the empty store. -/
theorem C10_todays_pnl_witness :
    get_todays_pnl { ({} : DB) with trades := buyTrade 1 :: ({} : DB).trades }
      = get_todays_pnl ({} : DB) - (buyTrade 1).amount_sol :=
  C10_todays_pnl.2.1 {} (buyTrade 1) rfl rfl rfl

end Frontrun
